import Mathlib

/-!
Verification development for the Opus packet-framing parser of the
`opus-rs` repository (src/packet/parser.rs, src/packet/utils.rs,
src/packet/config.rs).

The parser is embedded shallowly: byte buffers are `List Nat` (each entry
a byte value), frame slices `&packet[a..b]` are recorded as `Frame`
(offset and length into the packet), and every outcome of the Rust code
is made explicit, including panics.  A `panic` outcome covers an
out-of-bounds index or slice, and an unsigned subtraction that
underflows (which aborts in a debug build; in a release build the
wrapped value feeds a slice whose start exceeds its end, which also
aborts, so the observable outcome is an abort either way — the doc
comment of each modelled subtraction records the site).
-/

namespace Opus

/-- A frame slice `&packet[off..off+len]`: byte offset and length into
the original packet buffer. -/
structure Frame where
  off : Nat
  len : Nat
deriving DecidableEq, Repr

/-- Sum of the lengths of a list of frame slices. -/
def framesSum (l : List Frame) : Nat := (l.map Frame.len).sum

/-- Error enumeration of src/packet/parser.rs. -/
inductive Error where
  | NoTOC
  | FrameTooBig
  | NonOddLength
  | PacketTooSmall
  | LengthOverflow
  | TooMuchAudio
  | NonMultipleRemainder
  | NoAudio
deriving DecidableEq, Repr

/-- Outcome of `parse_frame_length` (src/packet/utils.rs): `panic` for an
out-of-bounds index, `insufficient` for the `None` return, `ok` for
`Some((length, consumed))`. -/
inductive FLOut where
  | panic
  | insufficient
  | ok (length consumed : Nat)
deriving DecidableEq, Repr

/-- Model of `parse_frame_length` (src/packet/utils.rs).  Mirrors the
source exactly: on a nonempty buffer whose first byte exceeds 251 the
source tests `bytes.len() < 2` and, in the *true* branch (so exactly one
byte is available), evaluates `bytes[1]`, an out-of-bounds index, before
it could return `Some((length + bytes[1] * 4, 2))`; in the `else` branch
(two or more bytes available) it returns `None`. -/
def parse_frame_length (bytes : List Nat) : FLOut :=
  if bytes.length < 1 then .insufficient
  else
    let length := bytes.headD 0
    if length > 251 then
      if bytes.length < 2 then
        -- `length += bytes[1] as usize * 4` indexes past the end here.
        .panic
      else
        .insufficient
    else
      .ok length 1

/-- Subtraction `a - b` on `usize` made explicit: `none` when it would
underflow. -/
def checkedSub (a b : Nat) : Option Nat :=
  if b ≤ a then some (a - b) else none

/-- Twice the `framesize` field (in milliseconds) of the 32 entries of
`OPUS_CONFIG_TABLE` (src/packet/config.rs), indexed by the 5-bit TOC
config field.  Doubling makes the table integral: the source stores
2.5/5/10/20/40/60 ms as `f32`, and the only use of the value is the
strict-mode test `framesize * num_frames > 120.0`, whose operands and
bound are all exactly representable, so it is equivalent to
`framesize_x2 * num_frames > 240` over the naturals. -/
def framesize_x2 (i : Nat) : Nat :=
  [20, 40, 80, 120, 20, 40, 80, 120, 20, 40, 80, 120,
   20, 40, 20, 40,
   5, 10, 20, 40, 5, 10, 20, 40, 5, 10, 20, 40, 5, 10, 20, 40].getD i 0

/-- Packet statistics, field for field the `Info` struct of the source.
`frame_config` is represented by the 5-bit config index (the
`OPUS_CONFIG_TABLE` lookup is a pure table lookup on it) together with
the stereo flag. -/
structure Info where
  configIdx : Nat
  isStereo : Bool
  isVbr : Option Bool
  numFrames : Nat
  codeNo : Nat
deriving DecidableEq, Repr

/-- The `Internal` struct of the source: `Info` plus the padding
descriptor `Option<(usize, Option<&[u8]>)>`, the borrowed padding bytes
being recorded as a `Frame` range. -/
structure Internal where
  info : Info
  padding : Option (Nat × Option Frame)
deriving DecidableEq, Repr

/-- Outcome of one whole `parse` call: `ok` carries the returned
`Internal` plus the final content of the caller's frame vector, `err` a
typed `Error`, `panic` an abort. -/
inductive ParseOut where
  | ok (res : Internal) (frames : List Frame)
  | err (e : Error)
  | panic
deriving DecidableEq, Repr

/-- Outcome of the Code 3 padding loop (parser.rs lines 228-255): the
final `n_padb` and `pad_len` on normal exit. -/
inductive PadOut where
  | ok (n_padb pad_len : Nat)
  | err (e : Error)
  | panic
deriving DecidableEq, Repr

/-- The Code 3 padding-length loop of parser.rs (lines 229-254),
recursing over the bytes still ahead of the read position.  The source
reads `packet[2 + n_padb]` with `n_padb` initialized to `is_pad as
usize`, i.e. to 1, so the first byte read is `packet[3]`; `avail` is the
suffix of the packet starting at that read position and `bound` is
`packet.len() - 2`.  Reading past the end of the packet is the `panic`
outcome (out-of-bounds index). -/
def padChain (avail : List Nat) (bound : Nat) (n_padb pad_len : Nat) : PadOut :=
  match avail with
  | [] => .panic
  | padb :: rest =>
    let pad_len1 := pad_len + padb
    if padb ≠ 255 then .ok n_padb pad_len1
    else
      -- value 255: contributes 254 (`pad_len += 255` then `pad_len -= 1`)
      let pad_len2 := pad_len1 - 1
      if pad_len2 + n_padb > bound then .err .LengthOverflow
      else padChain rest bound (n_padb + 1) pad_len2

/-- Outcome of the explicit-length VBR loop of parser.rs (lines
266-282): the accumulated frame vector and the final `frame_pos`. -/
inductive VbrOut where
  | ok (frames : List Frame) (frame_pos : Nat)
  | err (e : Error)
  | panic
deriving DecidableEq, Repr

/-- The Code 3 loop over frames `0..num_frames-1` of parser.rs (lines
266-282), one step per explicitly length-prefixed frame.  Taking
`&packet[frame_pos..]` panics when `frame_pos` exceeds the packet
length, and slicing `&packet[frame_off..frame_off + frame_len.0]` panics
when the end runs past the packet. -/
def vbrLoop (strict : Bool) (packet : List Nat) (len_compressed : Nat) :
    Nat → Nat → List Frame → VbrOut
  | 0, frame_pos, frames => .ok frames frame_pos
  | n + 1, frame_pos, frames =>
    if packet.length < frame_pos then .panic
    else
      match parse_frame_length (packet.drop frame_pos) with
      | .panic => .panic
      | .insufficient => .err .PacketTooSmall
      | .ok flen consumed =>
        let frame_off := frame_pos + consumed
        if frame_off + flen ≤ packet.length then
          if strict ∧ len_compressed < flen then .err .PacketTooSmall
          else
            vbrLoop strict packet len_compressed n (frame_off + flen)
              (frames ++ [⟨frame_off, flen⟩])
        else .panic

/-- The Code 3 CBR loop of parser.rs (lines 309-313), pushing
`num_frames` slices of `frame_len` bytes each; `none` stands for an
out-of-bounds slice (a panic).  In the source this branch is dead code:
see `parseBody`. -/
def cbrLoop (plen frame_len : Nat) :
    Nat → Nat → List Frame → Option (List Frame × Nat)
  | 0, frame_pos, frames => some (frames, frame_pos)
  | n + 1, frame_pos, frames =>
    if frame_pos + frame_len ≤ plen then
      cbrLoop plen frame_len n (frame_pos + frame_len)
        (frames ++ [⟨frame_pos, frame_len⟩])
    else none

/-- Intermediate result of the per-Code dispatch: the frame vector,
`is_vbr` and the padding descriptor on success. -/
inductive Step where
  | ok (frames : List Frame) (is_vbr : Option Bool)
      (padding : Option (Nat × Option Frame))
  | err (e : Error)
  | panic
deriving DecidableEq, Repr

/-- Lines 318-329 of parser.rs, shared by both Code 3 sub-branches: the
strict final-size check and the construction of the padding
descriptor (the borrowed `&packet[pad_pos..]`). -/
def finishCode3 (strict : Bool) (packet : List Nat) (is_pad : Bool)
    (n_padb pad_len pad_pos : Nat) (fr : List Frame) (is_vbr : Option Bool) :
    Step :=
  if strict ∧ packet.length - pad_pos > pad_len then .err .PacketTooSmall
  else if is_pad ∧ pad_len ≠ 0 ∧ packet.length < pad_pos then .panic
  else
    .ok fr is_vbr
      (if is_pad then
        some (pad_len + n_padb,
          if pad_len = 0 then none
          else some ⟨pad_pos, packet.length - pad_pos⟩)
      else none)

/-- The per-Code dispatch of `parse` (parser.rs lines 129-333), given
the TOC byte and the 2-bit code selector.  Faithful to the source,
including its slips:
* Code 2 evaluates `&packet[1..3]` before any length check (panics on a
  packet shorter than 3 bytes), takes the compressed region as
  `&packet[frame_0_len.1..]` (offset measured from the packet start, so
  frame 0 begins at the length field itself), and takes frame 1 as
  `&packet[frame_0_len..]` (the length *value* used as a position);
* Code 3 binds `is_vbr = Some(fcb[0])` and then branches on
  `if let Some(_) = is_vbr`, which always matches, so the CBR `else`
  branch below is dead code;
* the Code 3 VBR tail guards `if len_compressed > frame_pos` (returning
  `PacketTooSmall`) and then computes `len_compressed - frame_pos`,
  which underflows whenever `frame_pos` exceeds `len_compressed`
  (modelled through `checkedSub` as a panic);
* with `num_frames = 0` the loop bound `num_frames - 1` underflows
  (debug abort; in release the wrapped bound makes the loop run until an
  error or abort, never to completion), modelled as a panic. -/
def parseBody (strict : Bool) (frames : List Frame) (packet : List Nat)
    (toc code_no : Nat) : Step :=
  if code_no = 0 then
    -- Code 0, 1 frame: `&packet[1..]`
    if strict ∧ packet.length - 1 > 1275 then .err .FrameTooBig
    else .ok (frames ++ [⟨1, packet.length - 1⟩]) none none
  else if code_no = 1 then
    -- Code 1, 2 frames
    if packet.length % 2 ≠ 0 then .err .NonOddLength
    else
      let clen := packet.length - 1
      let f0 : Frame := ⟨1, clen / 2⟩
      let f1 : Frame := ⟨1 + clen / 2, clen - clen / 2⟩
      if strict ∧ (f0.len > 1275 ∨ f1.len > 1275) then .err .FrameTooBig
      else .ok (frames ++ [f0, f1]) none none
  else if code_no = 2 then
    -- Code 2, 2 frames (var. size): `parse_frame_length(&packet[1..3])`
    if packet.length < 3 then .panic
    else
      match parse_frame_length ((packet.drop 1).take 2) with
      | .panic => .panic
      | .insufficient => .err .PacketTooSmall
      | .ok len0 consumed =>
        -- `compressed = &packet[frame_0_len.1..]`
        let compressedLen := packet.length - consumed
        if compressedLen < len0 then .err .LengthOverflow
        else if strict ∧ compressedLen - len0 > 1275 then .err .FrameTooBig
        else
          -- frame 0 = `&compressed[..frame_0_len]`, frame 1 = `&packet[frame_0_len..]`
          .ok (frames ++ [⟨consumed, len0⟩, ⟨len0, packet.length - len0⟩])
            none none
  else
    -- Code 3, multiple frames
    if packet.length < 2 then .err .PacketTooSmall
    else
      let fcb := packet.getD 1 0
      let vbrFlag := fcb / 128 % 2 = 1
      let is_pad := fcb / 64 % 2 = 1
      let num_frames := fcb % 64
      let is_vbr : Option Bool := some (decide vbrFlag)
      if strict ∧ num_frames < 1 then .err .NoAudio
      else if strict ∧ framesize_x2 (toc / 8) * num_frames > 240 then
        .err .TooMuchAudio
      else
        match
          (if is_pad then padChain (packet.drop 3) (packet.length - 2) 1 0
           else PadOut.ok 0 0) with
        | .panic => .panic
        | .err e => .err e
        | .ok n_padb pad_len =>
          -- `packet.len().checked_sub(n_padb + pad_len + 2)`
          match checkedSub packet.length (n_padb + pad_len + 2) with
          | none => .err .PacketTooSmall
          | some len_compressed =>
            match is_vbr with
            | some _ =>
              -- always taken: `if let Some(_) = is_vbr`
              if num_frames = 0 then .panic
              else
                match
                  vbrLoop strict packet len_compressed (num_frames - 1)
                    (n_padb + 2) frames with
                | .panic => .panic
                | .err e => .err e
                | .ok fr frame_pos =>
                  if len_compressed > frame_pos then .err .PacketTooSmall
                  else
                    match checkedSub len_compressed frame_pos with
                    | none => .panic
                    | some frame_len =>
                      if strict ∧ frame_len > 1275 then .err .FrameTooBig
                      else if frame_pos + frame_len ≤ packet.length then
                        finishCode3 strict packet is_pad n_padb pad_len
                          (frame_pos + frame_len)
                          (fr ++ [⟨frame_pos, frame_len⟩]) is_vbr
                      else .panic
            | none =>
              -- dead code in the source (see above)
              if num_frames = 0 then .panic
              else if len_compressed % num_frames ≠ 0 then
                .err .NonMultipleRemainder
              else
                let frame_len := len_compressed / num_frames
                match
                  cbrLoop packet.length frame_len num_frames (n_padb + 2)
                    frames with
                | none => .panic
                | some (fr, pad_pos) =>
                  finishCode3 strict packet is_pad n_padb pad_len pad_pos fr
                    is_vbr

/-- Model of `fn parse` (src/packet/parser.rs).  `strict` is the
`strict` cargo feature, `frames` the caller-supplied frame vector as it
stands when `parse` is called (the source never clears it), `packet` the
packet bytes.  On success the result carries the returned `Internal`
(whose `num_frames` the source sets to `frames.len()` at line 335, i.e.
to the length of the whole vector) and the final vector. -/
def parse (strict : Bool) (frames : List Frame) (packet : List Nat) :
    ParseOut :=
  if packet.length < 1 then .err .NoTOC
  else
    let toc := packet.headD 0
    let code_no := toc % 4
    match parseBody strict frames packet toc code_no with
    | .ok fr vbr pad =>
      .ok ⟨⟨toc / 8, toc / 4 % 2 == 1, vbr, fr.length, code_no⟩, pad⟩ fr
    | .err e => .err e
    | .panic => .panic

/-- C1: on a Code 3 CBR packet the claim predicts `M` equal frames when
`R % M = 0` and `NonMultipleRemainder` otherwise; the code instead
branches on `if let Some(_) = is_vbr`, which always matches, so the CBR
branch is dead and both packets below reach the VBR tail, whose guard is
inverted, and abort on the underflow of `len_compressed - frame_pos`.
Packet `[3, 2, 0, 0]` (TOC code 3, CBR, `M = 2`, `R = 2`, so `R % M =
0`) should parse to two 1-byte frames; packet `[3, 2, 0]` (`R = 1`,
`R % M = 1`) should fail `NonMultipleRemainder`; both panic. -/
theorem C1_cbr_dead_branch :
    parse false [] [3, 2, 0, 0] = .panic ∧
    parse false [] [3, 2, 0] = .panic := by
  exact ⟨rfl, rfl⟩

/-- C2: the claim predicts `parse_frame_length [252, w]` decodes to
`(252 + w * 4, 2)`, that the empty or one-byte-with-first-byte-252
window fails with insufficient data, and that the function never
panics.  The source's `bytes.len() < 2` test has its branches swapped:
with two bytes available it returns `None`, and with one byte available
it indexes `bytes[1]` out of bounds. -/
theorem C2_frame_length_inverted :
    parse_frame_length [252, 0] = .insufficient ∧
    parse_frame_length [252] = .panic ∧
    parse_frame_length [251] = .ok 251 1 := by
  exact ⟨rfl, rfl, rfl⟩

/-- C3: on a Code 3 VBR packet the claim gives the non-delimited last
frame the whole remainder `R` minus the bytes already consumed.  Packet
`[3, 129, 7, 8]` (VBR, `M = 1`, `R = 2`) should yield one 2-byte frame
`[7, 8]`; the code compares `len_compressed` against the absolute
position `frame_pos` (which still contains the 2-byte header offset),
with the guard inverted, and emits an empty last frame at offset 2.
Packet `[3, 130, 1, 7, 8]` (VBR, `M = 2`, explicit first frame `[7]`)
should yield frames `[7]` and `[8]`; the code underflows
`len_compressed - frame_pos` (3 - 4) and aborts. -/
theorem C3_vbr_last_frame :
    parse false [] [3, 129, 7, 8] =
      .ok ⟨⟨0, false, some true, 1, 3⟩, none⟩ [⟨2, 0⟩] ∧
    parse false [] [3, 130, 1, 7, 8] = .panic := by
  exact ⟨rfl, rfl⟩

/-- C4: on packet `[2, 1, 9, 9]` (Code 2, length field declares `L = 1`,
field size 1) the claim places frame 0 at offset 2 (right after the
length field) with length 1, and frame 1 at offset 3 with length 1.  The
code takes the compressed region as `&packet[frame_0_len.1..]`, an
offset that forgets the TOC byte, so frame 0 is `⟨1, 1⟩` — the length
byte itself — and then takes frame 1 as `&packet[frame_0_len..]`, using
the length *value* as a position, yielding `⟨1, 3⟩`. -/
theorem C4_code2_offsets :
    parse false [] [2, 1, 9, 9] =
      .ok ⟨⟨0, false, none, 2, 2⟩, none⟩ [⟨1, 1⟩, ⟨1, 3⟩] := by
  exact rfl

/-- C5: the claim asserts that for every `Ok` parse the emitted frame
lengths plus padding plus header overhead equal the packet length.  On
packet `[2, 0, 9]` (Code 2, `L = 0`) the parse succeeds with frames
`⟨1, 0⟩` and `⟨0, 3⟩` (the second spans the whole packet, TOC byte
included), so the frame lengths sum to 3 and adding the 2 header bytes
(TOC + length field) gives 5, not the packet length 3. -/
theorem C5_roundtrip_violated :
    parse false [] [2, 0, 9] =
      .ok ⟨⟨0, false, none, 2, 2⟩, none⟩ [⟨1, 0⟩, ⟨0, 3⟩] ∧
    framesSum [⟨1, 0⟩, ⟨0, 3⟩] + 2 ≠ 3 := by
  exact ⟨rfl, by decide⟩

/-- C6 counterexample: packet `[1, 5, 6, 7]` (Code 1, total length 4,
even) is accepted, and the two emitted frames are `⟨1, 1⟩` and `⟨2, 2⟩`:
the post-TOC remainder has 3 bytes, so the halves have lengths 1 and 2 —
not the "two equal halves" the claim asserts (an even total length
leaves an odd remainder, which can never split equally). -/
theorem C6_counterexample :
    parse false [] [1, 5, 6, 7] =
      .ok ⟨⟨0, false, none, 2, 1⟩, none⟩ [⟨1, 1⟩, ⟨2, 2⟩] ∧
    (⟨1, 1⟩ : Frame).len ≠ (⟨2, 2⟩ : Frame).len := by
  exact ⟨rfl, by decide⟩

/-- C6 amended: a Code 1 packet fails with `NonOddLength` exactly when
its total length is odd; when the total length is even the parse either
fails the strict `FrameTooBig` check or succeeds with exactly two
contiguous frames covering the post-TOC remainder `R = N - 1`, frame 0
of `R / 2` bytes and frame 1 of the remaining `R - R / 2` bytes (the two
differ by one byte, since `R` is odd for every accepted packet). -/
theorem C6_code1_split (strict : Bool) (init : List Frame)
    (packet : List Nat) (hc : packet.headD 0 % 4 = 1) :
    (parse strict init packet = .err .NonOddLength ↔
      packet.length % 2 = 1) ∧
    (packet.length % 2 = 0 →
      parse strict init packet = .err .FrameTooBig ∨
      parse strict init packet =
        .ok ⟨⟨packet.headD 0 / 8, packet.headD 0 / 4 % 2 == 1, none,
              init.length + 2, 1⟩, none⟩
          (init ++ [⟨1, (packet.length - 1) / 2⟩,
                    ⟨1 + (packet.length - 1) / 2,
                     packet.length - 1 - (packet.length - 1) / 2⟩])) := by
  have hne : ¬ packet.length < 1 := by
    cases packet with
    | nil => simp at hc
    | cons a l => simp
  rcases Nat.mod_two_eq_zero_or_one packet.length with he | ho
  · have hkey : parse strict init packet =
        if strict = true ∧ (1275 < (packet.length - 1) / 2 ∨
            1275 < packet.length - 1 - (packet.length - 1) / 2) then
          ParseOut.err .FrameTooBig
        else
          ParseOut.ok ⟨⟨packet.headD 0 / 8, packet.headD 0 / 4 % 2 == 1,
              none, init.length + 2, 1⟩, none⟩
            (init ++ [⟨1, (packet.length - 1) / 2⟩,
                      ⟨1 + (packet.length - 1) / 2,
                       packet.length - 1 - (packet.length - 1) / 2⟩]) := by
      simp only [parse.eq_def, parseBody.eq_def, hc, if_neg hne, he]
      norm_num
      by_cases hs : strict = true ∧ (1275 < (packet.length - 1) / 2 ∨
          1275 < packet.length - 1 - (packet.length - 1) / 2)
      · simp only [if_pos hs]
      · simp only [if_neg hs]
        simp
    constructor
    · rw [hkey]
      constructor
      · intro h
        by_cases hs : strict = true ∧ (1275 < (packet.length - 1) / 2 ∨
            1275 < packet.length - 1 - (packet.length - 1) / 2)
        · rw [if_pos hs] at h
          exact absurd h (by simp)
        · rw [if_neg hs] at h
          exact absurd h (by simp)
      · intro h
        omega
    · intro _
      rw [hkey]
      by_cases hs : strict = true ∧ (1275 < (packet.length - 1) / 2 ∨
          1275 < packet.length - 1 - (packet.length - 1) / 2)
      · rw [if_pos hs]
        exact Or.inl rfl
      · rw [if_neg hs]
        exact Or.inr rfl
  · have hkey : parse strict init packet = ParseOut.err .NonOddLength := by
      simp only [parse.eq_def, parseBody.eq_def, hc, if_neg hne, ho]
      norm_num
    constructor
    · simp [hkey, ho]
    · intro h
      omega

/-- C6 amended, witnessed at packet `[1, 5, 6, 7]` with strict
validation off and an empty initial frame vector. -/
theorem C6_code1_split_witness :
    (parse false [] [1, 5, 6, 7] = .err .NonOddLength ↔
      ([1, 5, 6, 7] : List Nat).length % 2 = 1) ∧
    (([1, 5, 6, 7] : List Nat).length % 2 = 0 →
      parse false [] [1, 5, 6, 7] = .err .FrameTooBig ∨
      parse false [] [1, 5, 6, 7] =
        .ok ⟨⟨([1, 5, 6, 7] : List Nat).headD 0 / 8,
              ([1, 5, 6, 7] : List Nat).headD 0 / 4 % 2 == 1, none,
              ([] : List Frame).length + 2, 1⟩, none⟩
          (([] : List Frame) ++
            [⟨1, (([1, 5, 6, 7] : List Nat).length - 1) / 2⟩,
             ⟨1 + (([1, 5, 6, 7] : List Nat).length - 1) / 2,
              ([1, 5, 6, 7] : List Nat).length - 1 -
                (([1, 5, 6, 7] : List Nat).length - 1) / 2⟩])) :=
  C6_code1_split false [] [1, 5, 6, 7] (by decide)

/-- C7: the claim predicts that the padding chain starts at byte 2 and
that `LengthOverflow` is raised whenever the declared padding plus the
padding-length bytes exceed `packet_length - 2`.  On packet
`[3, 65, 200, 0]` (Code 3, padding flag set, `M = 1`) the chain per the
claim reads byte 2 (value 200), whose contribution makes the total
`201 > 2`, so the claim demands `LengthOverflow`.  The code initializes
`n_padb` to 1 before the first read, so it reads byte 3 (value 0)
instead, applies its bound check only after a 255 continuation byte, and
goes on to underflow `len_compressed - frame_pos` (1 - 3) and abort. -/
theorem C7_padding_chain :
    parse false [] [3, 65, 200, 0] = .panic := by
  exact rfl

/-- C8 counterexample: with one slice already in the caller's vector and
packet `[0, 7]` (Code 0, one 1-byte frame appended), the returned
`num_frames` is 2 — the whole vector length — while the number of frames
appended during the call is 1. -/
theorem C8_counterexample :
    parse false [⟨0, 0⟩] [0, 7] =
      .ok ⟨⟨0, false, none, 2, 0⟩, none⟩ [⟨0, 0⟩, ⟨1, 1⟩] ∧
    (2 : Nat) ≠ ([⟨1, 1⟩] : List Frame).length := by
  exact ⟨rfl, by decide⟩

/-- C8 amended: the source sets `num_frames = frames.len()` at the very
end, so on every `Ok` return `num_frames` equals the total length of the
caller's output vector after the call — pre-existing slices included —
and equals the appended count only when the vector was empty at call
time. -/
theorem C8_num_frames_total (strict : Bool) (init fr : List Frame)
    (packet : List Nat) (res : Internal)
    (h : parse strict init packet = .ok res fr) :
    res.info.numFrames = fr.length := by
  simp only [parse.eq_def] at h
  split at h
  · exact absurd h (by simp)
  · split at h
    · rw [ParseOut.ok.injEq] at h
      rw [← h.1, ← h.2]
    · exact absurd h (by simp)
    · exact absurd h (by simp)

/-- C8 amended, witnessed at packet `[0, 7]` with one pre-existing slice
in the vector. -/
theorem C8_num_frames_total_witness :
    (Internal.mk ⟨0, false, none, 2, 0⟩ none).info.numFrames =
      ([⟨0, 0⟩, ⟨1, 1⟩] : List Frame).length :=
  C8_num_frames_total false [⟨0, 0⟩] [⟨0, 0⟩, ⟨1, 1⟩] [0, 7]
    ⟨⟨0, false, none, 2, 0⟩, none⟩ rfl

/-- C9: the claim says a non-strict Code 3 packet declaring `M = 0`
parses to `Ok` with zero frames appended.  On packet `[3, 0]` the code
reaches the loop bound `num_frames - 1` with `num_frames = 0`, which
underflows (debug abort; in release the wrapped bound makes the loop run
until it errors or aborts, never returning `Ok` with zero frames). -/
theorem C9_zero_frames :
    parse false [] [3, 0] = .panic := by
  exact rfl

/-- C10: the claim says `parse` always returns `Ok` or a typed `Error`
and never panics.  Packet `[2, 5]` (Code 2, 2 bytes) panics because the
code slices `&packet[1..3]` before any length check, and packet
`[3, 65]` (Code 3 with the padding flag set, 2 bytes) panics because the
padding loop reads `packet[3]` past the end of the buffer. -/
theorem C10_panics_exist :
    parse false [] [2, 5] = .panic ∧
    parse false [] [3, 65] = .panic := by
  exact ⟨rfl, rfl⟩

end Opus
